import Mathlib

/-!
# Declaration surface of `backend/mpv/client.h`

`client.h` is a placeholder for the libmpv client header.  It has no function
bodies: it consists of one opaque typedef, six object-like macros (the include
guard and five format tags) and nine function prototypes.  The embedding below
transcribes those declarations, in source order, as Lean data, together with a
printer that reproduces the declaration lines of the header character for
character.  The conditional C++ linkage wrapper around the declarations
(lines 25-27 and 50-52) declares nothing and is left out.
-/

namespace MpvClient

/-- Type specifiers that occur in the header: `void`, `int`, `char`, and a
typedef name (only `mpv_handle` is used). -/
inductive CBase where
  | void
  | int
  | char
  | typedefName (name : String)
  deriving DecidableEq, Repr

/-- The C types of the header.  Every type written in `client.h` is a specifier,
optionally `const`-qualified, followed by a number of `*`:
`const char **` is `⟨.char, true, 2⟩`, plain `int` is `⟨.int, false, 0⟩`. -/
structure CType where
  base : CBase
  isConst : Bool
  ptrDepth : Nat
  deriving DecidableEq, Repr

/-- One named parameter of a prototype, e.g. `const char *name`. -/
structure Param where
  type : CType
  name : String
  deriving DecidableEq, Repr

/-- A function prototype `ret name(params);`.  The C parameter list `(void)` is
the empty list. -/
structure Proto where
  ret : CType
  name : String
  params : List Param
  deriving DecidableEq, Repr

/-- The three kinds of declaration found in the header. -/
inductive Decl where
  | typedefStruct (tag : String) (newName : String)
  | define (name : String) (value : Option Int)
  | proto (p : Proto)
  deriving DecidableEq, Repr

/-! ## The types used by the prototypes -/

/-- Plain `void`, the return type of `mpv_destroy` and `mpv_free`. -/
def cVoid : CType := ⟨.void, false, 0⟩

/-- Plain `int`. -/
def cInt : CType := ⟨.int, false, 0⟩

/-- The type `mpv_handle *`. -/
def handlePtr : CType := ⟨.typedefName "mpv_handle", false, 1⟩

/-- The type `const char *`. -/
def constCharPtr : CType := ⟨.char, true, 1⟩

/-- The type `const char **`. -/
def constCharPtrPtr : CType := ⟨.char, true, 2⟩

/-- The type `void *`. -/
def voidPtr : CType := ⟨.void, false, 1⟩

/-! ## The macros (`client.h` lines 31-35) -/

def MPV_FORMAT_NONE : Int := 0
def MPV_FORMAT_STRING : Int := 1
def MPV_FORMAT_FLAG : Int := 3
def MPV_FORMAT_INT64 : Int := 4
def MPV_FORMAT_DOUBLE : Int := 5

/-! ## The prototypes (`client.h` lines 40-48) -/

/-- Source: `mpv_handle *mpv_create(void);` -/
def mpv_create : Proto :=
  ⟨handlePtr, "mpv_create", []⟩

/-- Source: `int mpv_initialize(mpv_handle *ctx);` -/
def mpv_initialize : Proto :=
  ⟨cInt, "mpv_initialize", [⟨handlePtr, "ctx"⟩]⟩

/-- Source: `void mpv_destroy(mpv_handle *ctx);` -/
def mpv_destroy : Proto :=
  ⟨cVoid, "mpv_destroy", [⟨handlePtr, "ctx"⟩]⟩

/-- Source:
`int mpv_set_option_string(mpv_handle *ctx, const char *name, const char *data);` -/
def mpv_set_option_string : Proto :=
  ⟨cInt, "mpv_set_option_string",
    [⟨handlePtr, "ctx"⟩, ⟨constCharPtr, "name"⟩, ⟨constCharPtr, "data"⟩]⟩

/-- Source: `int mpv_command(mpv_handle *ctx, const char **args);` -/
def mpv_command : Proto :=
  ⟨cInt, "mpv_command", [⟨handlePtr, "ctx"⟩, ⟨constCharPtrPtr, "args"⟩]⟩

/-- Source:
`int mpv_set_property(mpv_handle *ctx, const char *name, int format, void *data);` -/
def mpv_set_property : Proto :=
  ⟨cInt, "mpv_set_property",
    [⟨handlePtr, "ctx"⟩, ⟨constCharPtr, "name"⟩, ⟨cInt, "format"⟩, ⟨voidPtr, "data"⟩]⟩

/-- Source:
`int mpv_get_property(mpv_handle *ctx, const char *name, int format, void *data);` -/
def mpv_get_property : Proto :=
  ⟨cInt, "mpv_get_property",
    [⟨handlePtr, "ctx"⟩, ⟨constCharPtr, "name"⟩, ⟨cInt, "format"⟩, ⟨voidPtr, "data"⟩]⟩

/-- Source: `void mpv_free(void *data);` -/
def mpv_free : Proto :=
  ⟨cVoid, "mpv_free", [⟨voidPtr, "data"⟩]⟩

/-- Source: `const char *mpv_error_string(int error);` -/
def mpv_error_string : Proto :=
  ⟨constCharPtr, "mpv_error_string", [⟨cInt, "error"⟩]⟩

/-! ## The header -/

/-- The declarations of `client.h`, in source order (lines 20, 29, 31-35 and
40-48). -/
def client_h : List Decl :=
  [ .define "MPV_CLIENT_H_PLACEHOLDER" none,
    .typedefStruct "mpv_handle" "mpv_handle",
    .define "MPV_FORMAT_NONE" (some MPV_FORMAT_NONE),
    .define "MPV_FORMAT_STRING" (some MPV_FORMAT_STRING),
    .define "MPV_FORMAT_FLAG" (some MPV_FORMAT_FLAG),
    .define "MPV_FORMAT_INT64" (some MPV_FORMAT_INT64),
    .define "MPV_FORMAT_DOUBLE" (some MPV_FORMAT_DOUBLE),
    .proto mpv_create,
    .proto mpv_initialize,
    .proto mpv_destroy,
    .proto mpv_set_option_string,
    .proto mpv_command,
    .proto mpv_set_property,
    .proto mpv_get_property,
    .proto mpv_free,
    .proto mpv_error_string ]

/-! ## Reading the header -/

/-- The function prototypes declared by a header, in source order. -/
def prototypes : List Decl → List Proto
  | [] => []
  | .proto p :: ds => p :: prototypes ds
  | _ :: ds => prototypes ds

/-- The names of the declared functions, in source order. -/
def functionNames (h : List Decl) : List String :=
  (prototypes h).map (·.name)

/-- The first prototype with the given name, if any. -/
def findProto (h : List Decl) (name : String) : Option Proto :=
  (prototypes h).find? (fun p => p.name == name)

/-- The macros that expand to an integer constant, as (name, value) pairs in
source order.  A macro with an empty replacement list, such as the include
guard, has no value and is not listed. -/
def macros : List Decl → List (String × Int)
  | [] => []
  | .define n (some v) :: ds => (n, v) :: macros ds
  | _ :: ds => macros ds

/-- The value a macro name expands to, if the header defines it with one. -/
def macroValue (h : List Decl) (name : String) : Option Int :=
  ((macros h).find? (fun m => m.1 == name)).map (·.2)

/-- The format tags: the integer macros whose name begins `MPV_FORMAT_`. -/
def formatTags (h : List Decl) : List (String × Int) :=
  (macros h).filter (fun m => "MPV_FORMAT_".toList.isPrefixOf m.1.toList)

/-- The parameter types of a prototype, in order. -/
def Proto.paramTypes (p : Proto) : List CType :=
  p.params.map (·.type)

/-- The number of parameters of type `mpv_handle *`. -/
def Proto.handleParams (p : Proto) : Nat :=
  p.paramTypes.count handlePtr

/-- The prototype obtained by writing another function name in place of the
declared one, everything else kept. -/
def Proto.rename (p : Proto) (newName : String) : Proto :=
  { p with name := newName }

/-- The signature of a prototype: its return type and its parameter types. -/
def Proto.signature (p : Proto) : CType × List CType :=
  (p.ret, p.paramTypes)

/-- The signature under which a header declares a function name, if it does. -/
def signatureOf (h : List Decl) (name : String) : Option (CType × List CType) :=
  (findProto h name).map Proto.signature

/-- The functions of a header that take at least one `mpv_handle *` parameter,
by name and in source order. -/
def handleTakers (h : List Decl) : List String :=
  ((prototypes h).filter (fun p => decide (handlePtr ∈ p.paramTypes))).map (·.name)

/-- The functions of a header that return `mpv_handle *`, by name and in source
order. -/
def handleMakers (h : List Decl) : List String :=
  ((prototypes h).filter (fun p => decide (p.ret = handlePtr))).map (·.name)

/-! ## Printing the header -/

/-- The specifier part of a type, with its qualifier. -/
def CBase.render : CBase → String
  | .void => "void"
  | .int => "int"
  | .char => "char"
  | .typedefName n => n

/-- The text of a declaration `t name`: specifiers, a blank, the stars, the
name; `const char *name`, `int format`. -/
def CType.renderWith (t : CType) (name : String) : String :=
  (if t.isConst then "const " else "") ++ t.base.render ++ " " ++
    String.mk (List.replicate t.ptrDepth '*') ++ name

/-- The text of a parameter list; the empty list is written `void`. -/
def renderParams : List Param → String
  | [] => "void"
  | [p] => p.type.renderWith p.name
  | p :: q :: ps => p.type.renderWith p.name ++ ", " ++ renderParams (q :: ps)

/-- The decimal text of a macro value. -/
def renderInt (v : Int) : String :=
  if v < 0 then "-" ++ toString v.natAbs else toString v.natAbs

/-- The source line of a declaration. -/
def Decl.render : Decl → String
  | .typedefStruct tag newName => "typedef struct " ++ tag ++ " " ++ newName ++ ";"
  | .define n none => "#define " ++ n
  | .define n (some v) => "#define " ++ n ++ " " ++ renderInt v
  | .proto p => p.ret.renderWith p.name ++ "(" ++ renderParams p.params ++ ");"

/-- The declaration lines of `client.h`, verbatim (lines 20, 29, 31-35, 40-48). -/
def client_h_lines : List String :=
  [ "#define MPV_CLIENT_H_PLACEHOLDER",
    "typedef struct mpv_handle mpv_handle;",
    "#define MPV_FORMAT_NONE 0",
    "#define MPV_FORMAT_STRING 1",
    "#define MPV_FORMAT_FLAG 3",
    "#define MPV_FORMAT_INT64 4",
    "#define MPV_FORMAT_DOUBLE 5",
    "mpv_handle *mpv_create(void);",
    "int mpv_initialize(mpv_handle *ctx);",
    "void mpv_destroy(mpv_handle *ctx);",
    "int mpv_set_option_string(mpv_handle *ctx, const char *name, const char *data);",
    "int mpv_command(mpv_handle *ctx, const char **args);",
    "int mpv_set_property(mpv_handle *ctx, const char *name, int format, void *data);",
    "int mpv_get_property(mpv_handle *ctx, const char *name, int format, void *data);",
    "void mpv_free(void *data);",
    "const char *mpv_error_string(int error);" ]

/-! ## The embedding agrees with the source text -/

/-- Printing the embedded declarations gives the declaration lines of the
header, character for character. -/
theorem client_h_render : client_h.map Decl.render = client_h_lines := by
  decide

/-! ## The format tags -/

/-- C1: the five format-tag macros of the header have exactly the values
`MPV_FORMAT_NONE = 0`, `MPV_FORMAT_STRING = 1`, `MPV_FORMAT_FLAG = 3`,
`MPV_FORMAT_INT64 = 4` and `MPV_FORMAT_DOUBLE = 5`, both as looked up in the
header by name and as the full table of format tags. -/
theorem format_tag_values :
    macroValue client_h "MPV_FORMAT_NONE" = some 0 ∧
    macroValue client_h "MPV_FORMAT_STRING" = some 1 ∧
    macroValue client_h "MPV_FORMAT_FLAG" = some 3 ∧
    macroValue client_h "MPV_FORMAT_INT64" = some 4 ∧
    macroValue client_h "MPV_FORMAT_DOUBLE" = some 5 ∧
    formatTags client_h =
      [("MPV_FORMAT_NONE", 0), ("MPV_FORMAT_STRING", 1), ("MPV_FORMAT_FLAG", 3),
        ("MPV_FORMAT_INT64", 4), ("MPV_FORMAT_DOUBLE", 5)] := by
  decide

/-- C7: the format tags are a closed enumeration of exactly five members (five
distinct names, and the header defines no other integer macro); two tags with
the same value are the same tag, so the values are pairwise distinct; no tag
has the value 2; and every value lies between 0 and 5. -/
theorem format_tags_closed_enumeration :
    (formatTags client_h).length = 5 ∧
    ((formatTags client_h).map Prod.fst).Nodup ∧
    macros client_h = formatTags client_h ∧
    (∀ a ∈ formatTags client_h, ∀ b ∈ formatTags client_h, a.2 = b.2 → a = b) ∧
    ((formatTags client_h).map Prod.snd).Nodup ∧
    (∀ a ∈ formatTags client_h, a.2 ≠ 2) ∧
    (∀ a ∈ formatTags client_h, 0 ≤ a.2 ∧ a.2 ≤ 5) := by
  decide

/-- C7 at the tags `MPV_FORMAT_FLAG` and `MPV_FORMAT_INT64`: both are format
tags of the header, their values 3 and 4 differ from 2 and lie between 0 and 5,
and a tag whose value equals that of `MPV_FORMAT_FLAG` is `MPV_FORMAT_FLAG`. -/
theorem format_tags_closed_enumeration_witness :
    (("MPV_FORMAT_FLAG", 3) : String × Int) ∈ formatTags client_h ∧
    (("MPV_FORMAT_INT64", 4) : String × Int) ∈ formatTags client_h ∧
    ((3 : Int) ≠ 2 ∧ (0 : Int) ≤ 3 ∧ (3 : Int) ≤ 5) ∧
    ((4 : Int) ≠ 2 ∧ (0 : Int) ≤ 4 ∧ (4 : Int) ≤ 5) ∧
    ((("MPV_FORMAT_FLAG", 3) : String × Int) = ("MPV_FORMAT_FLAG", 3)) :=
  have h := format_tags_closed_enumeration
  have hf : (("MPV_FORMAT_FLAG", 3) : String × Int) ∈ formatTags client_h := by decide
  have hi : (("MPV_FORMAT_INT64", 4) : String × Int) ∈ formatTags client_h := by decide
  ⟨hf, hi,
    ⟨h.2.2.2.2.2.1 _ hf, h.2.2.2.2.2.2 _ hf⟩,
    ⟨h.2.2.2.2.2.1 _ hi, h.2.2.2.2.2.2 _ hi⟩,
    h.2.2.2.1 _ hf _ hf rfl⟩

/-! ## The declared functions -/

/-- C3: the header declares exactly nine functions, without duplicates, and
they are `mpv_create`, `mpv_initialize`, `mpv_destroy`,
`mpv_set_option_string`, `mpv_command`, `mpv_set_property`,
`mpv_get_property`, `mpv_free` and `mpv_error_string`. -/
theorem declared_functions :
    (prototypes client_h).length = 9 ∧
    (functionNames client_h).Nodup ∧
    functionNames client_h =
      ["mpv_create", "mpv_initialize", "mpv_destroy", "mpv_set_option_string",
        "mpv_command", "mpv_set_property", "mpv_get_property", "mpv_free",
        "mpv_error_string"] := by
  decide

/-- C2, as stated, fails: `mpv_create` is declared by the header, is none of
`mpv_destroy`, `mpv_free`, `mpv_error_string`, and its return type is
`mpv_handle *`, not `int`; so not every function outside those three returns
`int`. -/
theorem int_return_fails_at_mpv_create :
    mpv_create ∈ prototypes client_h ∧
    mpv_create.name ∉ ["mpv_destroy", "mpv_free", "mpv_error_string"] ∧
    mpv_create.ret = handlePtr ∧
    mpv_create.ret ≠ cInt ∧
    ¬ (∀ p ∈ prototypes client_h,
        p.name ∉ ["mpv_destroy", "mpv_free", "mpv_error_string"] → p.ret = cInt) := by
  decide

/-- C2, amended: every function declared by the header other than
`mpv_create`, `mpv_destroy`, `mpv_free` and `mpv_error_string` has return type
`int`. -/
theorem int_return_except_four (p : Proto) (hp : p ∈ prototypes client_h)
    (hn : p.name ∉ ["mpv_create", "mpv_destroy", "mpv_free", "mpv_error_string"]) :
    p.ret = cInt := by
  have key : ∀ q ∈ prototypes client_h,
      q.name ∉ ["mpv_create", "mpv_destroy", "mpv_free", "mpv_error_string"] →
        q.ret = cInt := by
    decide
  exact key p hp hn

/-- The amended C2 at `mpv_command`: it is declared, it is none of the four
excluded functions, and it returns `int`. -/
theorem int_return_except_four_witness :
    mpv_command ∈ prototypes client_h ∧
    mpv_command.name ∉ ["mpv_create", "mpv_destroy", "mpv_free", "mpv_error_string"] ∧
    mpv_command.ret = cInt :=
  ⟨by decide, by decide, int_return_except_four mpv_command (by decide) (by decide)⟩

/-- C4: `mpv_set_property` and `mpv_get_property` are declared with the same
signature: four parameters, in the order `mpv_handle *`, `const char *`, `int`,
`void *`, and return type `int`; and writing either name in place of the other
turns one declared prototype into the other. -/
theorem property_accessors_same_signature :
    signatureOf client_h "mpv_set_property" =
      some (cInt, [handlePtr, constCharPtr, cInt, voidPtr]) ∧
    signatureOf client_h "mpv_get_property" =
      some (cInt, [handlePtr, constCharPtr, cInt, voidPtr]) ∧
    ((findProto client_h "mpv_set_property").map (·.params.length)) = some 4 ∧
    ((findProto client_h "mpv_get_property").map (·.params.length)) = some 4 ∧
    (findProto client_h "mpv_set_property").map (·.rename "mpv_get_property") =
      findProto client_h "mpv_get_property" ∧
    (findProto client_h "mpv_get_property").map (·.rename "mpv_set_property") =
      findProto client_h "mpv_set_property" := by
  decide

/-- C5: the lifecycle prototypes: `mpv_create` takes no parameters and returns
`mpv_handle *`; `mpv_initialize` takes exactly one parameter, an
`mpv_handle *`, and returns `int`; `mpv_destroy` takes exactly one parameter,
an `mpv_handle *`, and returns `void`. -/
theorem lifecycle_prototypes :
    signatureOf client_h "mpv_create" = some (handlePtr, []) ∧
    signatureOf client_h "mpv_initialize" = some (cInt, [handlePtr]) ∧
    signatureOf client_h "mpv_destroy" = some (cVoid, [handlePtr]) := by
  decide

/-- C8: a declared function has an `mpv_handle *` parameter exactly when it is
one of `mpv_initialize`, `mpv_destroy`, `mpv_set_option_string`, `mpv_command`,
`mpv_set_property`, `mpv_get_property` (all six of which are declared); in each
of those the handle is the first parameter and the only handle parameter; and a
declared function returns `mpv_handle *` exactly when it is `mpv_create`. -/
theorem handle_discipline (p : Proto) (hp : p ∈ prototypes client_h) :
    handleTakers client_h =
      ["mpv_initialize", "mpv_destroy", "mpv_set_option_string", "mpv_command",
        "mpv_set_property", "mpv_get_property"] ∧
    handleMakers client_h = ["mpv_create"] ∧
    (handlePtr ∈ p.paramTypes ↔
      p.name ∈ ["mpv_initialize", "mpv_destroy", "mpv_set_option_string", "mpv_command",
        "mpv_set_property", "mpv_get_property"]) ∧
    (handlePtr ∈ p.paramTypes →
      p.paramTypes.head? = some handlePtr ∧ p.handleParams = 1) ∧
    (p.ret = handlePtr ↔ p.name = "mpv_create") := by
  have key : ∀ q ∈ prototypes client_h,
      handleTakers client_h =
        ["mpv_initialize", "mpv_destroy", "mpv_set_option_string", "mpv_command",
          "mpv_set_property", "mpv_get_property"] ∧
      handleMakers client_h = ["mpv_create"] ∧
      (handlePtr ∈ q.paramTypes ↔
        q.name ∈ ["mpv_initialize", "mpv_destroy", "mpv_set_option_string", "mpv_command",
          "mpv_set_property", "mpv_get_property"]) ∧
      (handlePtr ∈ q.paramTypes →
        q.paramTypes.head? = some handlePtr ∧ q.handleParams = 1) ∧
      (q.ret = handlePtr ↔ q.name = "mpv_create") := by
    decide
  exact key p hp

/-- C8 at `mpv_set_option_string`, a declared function with three parameters:
its first parameter is its one handle, and it does not return a handle. -/
theorem handle_discipline_witness :
    mpv_set_option_string ∈ prototypes client_h ∧
    mpv_set_option_string.paramTypes.head? = some handlePtr ∧
    mpv_set_option_string.handleParams = 1 ∧
    mpv_set_option_string.ret ≠ handlePtr := by
  have h := handle_discipline mpv_set_option_string (by decide)
  have hin : handlePtr ∈ mpv_set_option_string.paramTypes := h.2.2.1.2 (by decide)
  exact ⟨by decide, (h.2.2.2.1 hin).1, (h.2.2.2.1 hin).2,
    fun hr => absurd (h.2.2.2.2.1 hr) (by decide)⟩

end MpvClient
